import Mathlib

/-!
Verification of the Condo-search scraping engine against its specification.

This file shallowly embeds the relevant parts of the Python source
(`app/scraper/navigator.py`, `app/scraper/login_handler.py`, `app/api.py`,
`app/models/schemas.py`, `app/scraper/exceptions.py`) as executable Lean
definitions and proves or refutes the spec's testable properties.

Modelling conventions:
  - Python `str` is modelled by Lean `String`; character-level operations
    (strip, upper, lower, replace) are implemented on `List Char` with
    structural recursion so that all definitions evaluate by kernel
    reduction.
  - Python exceptions are modelled by the `PyError` type; a function that
    may raise returns `Except PyError _`.  The exception hierarchy of
    `app/scraper/exceptions.py` (every scraper error derives from
    `ScraperError`) is reflected by `PyError.isScraperError`.
  - Browser side effects are modelled as explicit traces of `PageAction`s,
    and the live page is modelled as explicit state (which elements exist,
    which checkboxes are selected, what the tables contain).
-/

namespace CondoSearch

/-- Character-level strip: removes leading and trailing whitespace, the
model of Python `str.strip()` (and of Python `float`'s argument stripping). -/
def trimChars (cs : List Char) : List Char :=
  ((cs.dropWhile Char.isWhitespace).reverse.dropWhile Char.isWhitespace).reverse

/-- Model of Python `s.replace(c, "")`: removing every occurrence of a
single character. -/
def removeChar (c : Char) (cs : List Char) : List Char :=
  cs.filter (fun x => x ≠ c)

/-- Python `str.upper()` followed by `str.strip()`, as performed on
`street_direction` in `configure_search_filters`. -/
def pyUpperTrim (s : String) : String :=
  String.mk (trimChars (s.toList.map Char.toUpper))

/-- Python `str.lower()`. -/
def pyLower (s : String) : String :=
  String.mk (s.toList.map Char.toLower)

/-- Boolean substring test on character lists, the model of Python's
`needle in hay` on strings. -/
def hasSubstring (needle : List Char) : List Char → Bool
  | [] => needle.isEmpty
  | c :: rest => needle.isPrefixOf (c :: rest) || hasSubstring needle rest

/-- Model of Python `needle in hay` for strings. -/
def strContainsSub (hay needle : String) : Bool :=
  hasSubstring needle.toList hay.toList

/-- A Selenium locator strategy: the `(By, value)` pairs handed to
`_find_element_with_fallback` (navigator.py line 754, login_handler.py
line 204). -/
structure Strategy where
  method : String
  value : String
deriving DecidableEq, Repr

/-- An abstract page element (Selenium WebElement handle). -/
structure Elem where
  elemId : Nat
deriving DecidableEq, Repr

/-- Python exception values raised by the embedded code.  The constructors
`navigationError`, `loginError` and `elementNotFound` model the
`ScraperError` subclasses of `app/scraper/exceptions.py`; `attributeError`,
`valueError` and `overflowError` model the Python builtins.
`elementNotFound` carries the full strategy list that was attempted, the
structured content of the message
`"Could not find element with any of the provided selectors: ..."`. -/
inductive PyError where
  | navigationError (msg : String)
  | loginError (msg : String)
  | elementNotFound (attempted : List Strategy)
  | attributeError (msg : String)
  | valueError (msg : String)
  | overflowError (msg : String)
deriving DecidableEq, Repr

/-- Whether an exception is an instance of `ScraperError`
(`app/scraper/exceptions.py`): `NavigationError`, `LoginError` and
`ElementNotFoundError` derive from it, the Python builtins do not. -/
def PyError.isScraperError : PyError → Bool
  | .navigationError _ => true
  | .loginError _ => true
  | .elementNotFound _ => true
  | .attributeError _ => false
  | .valueError _ => false
  | .overflowError _ => false

/-- The inner loop of `_find_element_with_fallback` (navigator.py lines
770-779): try each strategy in order against the live page, stop at the
first one that finds an element.  Returns the list of strategies actually
attempted together with the element found, if any.  The page is modelled
as a function from strategy to the element it locates (or `none` when the
strategy's bounded wait times out). -/
def findAux (page : Strategy → Option Elem) : List Strategy → List Strategy × Option Elem
  | [] => ([], none)
  | s :: rest =>
    match page s with
    | some e => ([s], some e)
    | none =>
      let r := findAux page rest
      (s :: r.1, r.2)

/-- Model of `_find_element_with_fallback` (navigator.py lines 754-782 and
login_handler.py lines 204-229): the first strategy that succeeds wins;
if every strategy times out, `ElementNotFoundError` is raised carrying the
full list of provided selectors.  The first component is the trace of
strategies attempted. -/
def find_element_with_fallback (page : Strategy → Option Elem) (selectors : List Strategy) :
    List Strategy × Except PyError Elem :=
  match findAux page selectors with
  | (tried, some e) => (tried, .ok e)
  | (tried, none) => (tried, .error (.elementNotFound selectors))

theorem findAux_all_none (page : Strategy → Option Elem) (selectors : List Strategy)
    (h : ∀ s ∈ selectors, page s = none) : findAux page selectors = (selectors, none) := by
  induction selectors with
  | nil => rfl
  | cons s rest ih =>
    have hs : page s = none := h s (List.mem_cons_self s rest)
    have hrest : ∀ s2 ∈ rest, page s2 = none := fun s2 hm => h s2 (List.mem_cons_of_mem s hm)
    simp [findAux, hs, ih hrest]

theorem findAux_first_hit (page : Strategy → Option Elem) (pre post : List Strategy)
    (s : Strategy) (e : Elem) (hpre : ∀ s2 ∈ pre, page s2 = none) (hs : page s = some e) :
    findAux page (pre ++ s :: post) = (pre ++ [s], some e) := by
  induction pre with
  | nil => simp [findAux, hs]
  | cons p rest ih =>
    have hp : page p = none := hpre p (List.mem_cons_self p rest)
    have hrest : ∀ s2 ∈ rest, page s2 = none := fun s2 hm => hpre s2 (List.mem_cons_of_mem p hm)
    simp [findAux, hp, ih hrest]

/-- C4: the resilient locator tries candidate strategies strictly in list
order, returns the element of the first succeeding strategy without
attempting any later strategy, and when every strategy times out raises
`ElementNotFound` carrying the full list of attempted strategies. -/
theorem locator_fallback_order (page : Strategy → Option Elem) (pre post : List Strategy)
    (s : Strategy) (e : Elem) :
    ((∀ s2 ∈ pre, page s2 = none) → page s = some e →
      find_element_with_fallback page (pre ++ s :: post) = (pre ++ [s], .ok e)) ∧
    (∀ selectors : List Strategy, (∀ s2 ∈ selectors, page s2 = none) →
      find_element_with_fallback page selectors = (selectors, .error (.elementNotFound selectors))) := by
  constructor
  · intro hpre hs
    simp [find_element_with_fallback, findAux_first_hit page pre post s e hpre hs]
  · intro selectors hall
    simp [find_element_with_fallback, findAux_all_none page selectors hall]

/-- A synthetic page for the locator witness: only the strategy with value
`"third"` matches. -/
def witnessPage : Strategy → Option Elem :=
  fun s => if s.value = "third" then some ⟨7⟩ else none

/-- Witness for C4: on a synthetic page where only the third of four
strategies matches, the locator returns that element having attempted
exactly the first three strategies (never the fourth), and on a page where
every strategy fails it raises `ElementNotFound` carrying the full list. -/
theorem locator_fallback_order_witness :
    find_element_with_fallback witnessPage
        [⟨"id", "first"⟩, ⟨"xpath", "second"⟩, ⟨"css", "third"⟩, ⟨"xpath", "fourth"⟩] =
      ([⟨"id", "first"⟩, ⟨"xpath", "second"⟩, ⟨"css", "third"⟩], .ok ⟨7⟩) ∧
    find_element_with_fallback witnessPage [⟨"id", "first"⟩, ⟨"xpath", "second"⟩] =
      ([⟨"id", "first"⟩, ⟨"xpath", "second"⟩],
        .error (.elementNotFound [⟨"id", "first"⟩, ⟨"xpath", "second"⟩])) := by
  constructor
  · exact (locator_fallback_order witnessPage [⟨"id", "first"⟩, ⟨"xpath", "second"⟩]
      [⟨"xpath", "fourth"⟩] ⟨"css", "third"⟩ ⟨7⟩).1 (by decide) (by decide)
  · exact (locator_fallback_order witnessPage [] [] ⟨"css", "third"⟩ ⟨7⟩).2
      [⟨"id", "first"⟩, ⟨"xpath", "second"⟩] (by decide)

/-- The state of the post-submit page as observed by `login` after the
navigation wait times out (login_handler.py lines 174-196): the current
URL, the texts of elements matching the inline-error XPath, and the number
of post-login marker elements present. -/
structure LoginPostSubmitPage where
  currentUrl : String
  errorTexts : List String
  markerCount : Nat
deriving DecidableEq, Repr

/-- Whether the current URL is still on the login path: the code's check
`"authenticate" in current_url_after.lower()` (login_handler.py line 180). -/
def onLoginPath (url : String) : Bool :=
  strContainsSub (pyLower url) "authenticate"

/-- Model of `login`'s outcome classification in the navigation-wait
timeout branch (login_handler.py lines 174-196): if the URL still contains
the login-path marker, search for an inline error element and raise
`LoginError` with its text if one exists, else raise a generic
`LoginError`; otherwise return success.  The post-login marker elements
are not consulted in this branch. -/
def login_timeout_outcome (p : LoginPostSubmitPage) : Except PyError Bool :=
  if onLoginPath p.currentUrl then
    match p.errorTexts with
    | t :: _ => .error (.loginError ("Login failed: " ++ t))
    | [] => .error (.loginError "Login failed: Still on login page after attempt")
  else .ok true

/-- C6: when the post-submit wait times out, a URL still on the login path
yields a `LoginError` carrying the first inline error message if one is
found and a generic `LoginError` otherwise, while a URL off the login path
yields success `true` regardless of how many post-login marker elements
are present. -/
theorem login_timeout_classification (url : String) (errs : List String) (m : Nat) :
    (onLoginPath url = true → login_timeout_outcome ⟨url, errs, m⟩ =
      .error (.loginError (match errs with
        | t :: _ => "Login failed: " ++ t
        | [] => "Login failed: Still on login page after attempt"))) ∧
    (onLoginPath url = false → login_timeout_outcome ⟨url, errs, m⟩ = .ok true) := by
  constructor
  · intro h
    cases errs with
    | nil => simp [login_timeout_outcome, h]
    | cons t rest => simp [login_timeout_outcome, h]
  · intro h
    simp [login_timeout_outcome, h]

/-- Witness for C6: concrete runs of both timeout branches, with a marker
element present in the off-login-path case to show it is ignored. -/
theorem login_timeout_classification_witness :
    login_timeout_outcome ⟨"https://x.com/authenticate/login", ["Invalid password"], 0⟩ =
      .error (.loginError "Login failed: Invalid password") ∧
    login_timeout_outcome ⟨"https://x.com/Authenticate", [], 0⟩ =
      .error (.loginError "Login failed: Still on login page after attempt") ∧
    login_timeout_outcome ⟨"https://x.com/home", [], 5⟩ = .ok true := by
  refine ⟨?_, ?_, ?_⟩
  · exact (login_timeout_classification "https://x.com/authenticate/login"
      ["Invalid password"] 0).1 (by decide)
  · exact (login_timeout_classification "https://x.com/Authenticate" [] 0).1 (by decide)
  · exact (login_timeout_classification "https://x.com/home" [] 5).2 (by decide)

/-- The four status checkboxes asserted by `configure_search_filters`
(navigator.py lines 566-618). -/
inductive CheckboxId where
  | active
  | comingSoon
  | activeWithContract
  | closed
deriving DecidableEq, Repr

/-- State of the RE1/RE2 search form page as `configure_search_filters`
observes it: the current selected state of the four status checkboxes,
whether the two best-effort classification dropdowns are present, and the
URL the browser reports after the Results click. -/
structure FilterPage where
  active : Bool
  comingSoon : Bool
  activeWithContract : Bool
  closed : Bool
  typeOfPropertyFound : Bool
  financingTypeFound : Bool
  resultsUrl : String
deriving DecidableEq, Repr

/-- Page interactions performed by `configure_search_filters`, in order. -/
inductive PageAction where
  | findElement (desc : String)
  | clickCheckbox (c : CheckboxId)
  | fillField (field val : String)
  | selectByValue (field val : String)
  | deselectAll (field : String)
  | clickResults
deriving DecidableEq, Repr

/-- The fixed street-direction enumeration of `configure_search_filters`
(navigator.py lines 541-550): direction name to internal coded value. -/
def STREET_DIRECTION_MAP : List (String × String) :=
  [("N", "121"), ("NE", "122"), ("E", "123"), ("SE", "124"),
   ("S", "125"), ("SW", "126"), ("W", "127"), ("NW", "128")]

/-- First-match association lookup, the model of Python dict lookup on the
literal direction map. -/
def lookupAssoc (m : List (String × String)) (k : String) : Option String :=
  (m.find? (fun e => e.1 = k)).map (fun e => e.2)

/-- Target state of each status checkbox: Active, Coming Soon and Active
With Contract must end unchecked, Closed must end checked (navigator.py
lines 566-618). -/
def targetChecked : CheckboxId → Bool
  | .active => false
  | .comingSoon => false
  | .activeWithContract => false
  | .closed => true

/-- The current selected state of a checkbox on the page. -/
def currentChecked (p : FilterPage) : CheckboxId → Bool
  | .active => p.active
  | .comingSoon => p.comingSoon
  | .activeWithContract => p.activeWithContract
  | .closed => p.closed

/-- The checkbox phase of `configure_search_filters` (navigator.py lines
566-618): each checkbox is located, then clicked only when its current
state differs from its target state. -/
def checkboxActions (p : FilterPage) : List PageAction :=
  [.findElement "status-Active"] ++
    (if p.active then [.clickCheckbox .active] else []) ++
  [.findElement "status-ComingSoon"] ++
    (if p.comingSoon then [.clickCheckbox .comingSoon] else []) ++
  [.findElement "status-ActiveWithContract"] ++
    (if p.activeWithContract then [.clickCheckbox .activeWithContract] else []) ++
  [.findElement "status-Closed"] ++
    (if !p.closed then [.clickCheckbox .closed] else [])

/-- The address phase of `configure_search_filters` (navigator.py lines
620-658): fill street number, select the coded street direction, fill
street name. -/
def addressActions (street_number direction_value street_name : String) : List PageAction :=
  [.findElement "Fm11_Ctrl15_0_145", .fillField "Fm11_Ctrl15_0_145" street_number,
   .findElement "Fm11_Ctrl15_0_142", .selectByValue "Fm11_Ctrl15_0_142" direction_value,
   .findElement "Fm11_Ctrl15_0_144", .fillField "Fm11_Ctrl15_0_144" street_name]

/-- One best-effort classification dropdown (navigator.py lines 660-704):
if the element is found it is deselected and the fixed value selected; a
failure is swallowed after the attempted lookup. -/
def optionalSelectActions (field : String) (found : Bool) (v : String) : List PageAction :=
  if found then [.findElement field, .deselectAll field, .selectByValue field v]
  else [.findElement field]

/-- Model of `configure_search_filters` (navigator.py lines 516-752).
The `street_direction` parameter is `Option String` because the public
request schema (`SearchFiltersRequest`, schemas.py line 16) declares it
Optional with default `None`; calling `.upper()` on `None` raises
`AttributeError` before the mapping or any page interaction.  A string
direction is upper-cased and stripped and must appear in
`STREET_DIRECTION_MAP`, otherwise `NavigationError` is raised before any
page interaction.  On the happy path the returned trace is the checkbox
phase, the address phase, the two best-effort dropdowns and the Results
click, and the result is the page URL after the click. -/
def configure_search_filters (street_number : String) (street_direction : Option String)
    (street_name : String) (p : FilterPage) : List PageAction × Except PyError String :=
  match street_direction with
  | none => ([], .error (.attributeError "NoneType object has no attribute upper"))
  | some sd =>
    let sdu := pyUpperTrim sd
    match lookupAssoc STREET_DIRECTION_MAP sdu with
    | none =>
      ([], .error (.navigationError
        ("Invalid street direction: " ++ sd ++ ". Must be one of: N, NE, E, SE, S, SW, W, NW")))
    | some direction_value =>
      (checkboxActions p ++ addressActions street_number direction_value street_name ++
        optionalSelectActions "Fm11_Ctrl588_LB" p.typeOfPropertyFound "25535" ++
        optionalSelectActions "Fm11_Ctrl491_LB" p.financingTypeFound "24512" ++
        [.findElement "m_ucSearchButtons_m_lbSearch", .clickResults],
       .ok p.resultsUrl)

/-- C3: a `street_direction` whose upper-cased, trimmed form is outside
the fixed direction enumeration makes `configure_search_filters` raise
`NavigationError` with an empty interaction trace (no element lookup,
click or fill precedes the rejection); a direction inside the enumeration
is never rejected, the call succeeds, and the direction's fixed coded
value is what gets selected into the street-direction dropdown. -/
theorem direction_validation (num name sd : String) (p : FilterPage) :
    (lookupAssoc STREET_DIRECTION_MAP (pyUpperTrim sd) = none →
      configure_search_filters num (some sd) name p =
        ([], .error (.navigationError
          ("Invalid street direction: " ++ sd ++ ". Must be one of: N, NE, E, SE, S, SW, W, NW")))) ∧
    (∀ dv, lookupAssoc STREET_DIRECTION_MAP (pyUpperTrim sd) = some dv →
      (configure_search_filters num (some sd) name p).2 = .ok p.resultsUrl ∧
      PageAction.selectByValue "Fm11_Ctrl15_0_142" dv ∈ (configure_search_filters num (some sd) name p).1) := by
  constructor
  · intro h
    simp [configure_search_filters, h]
  · intro dv h
    refine ⟨by simp [configure_search_filters, h], ?_⟩
    simp [configure_search_filters, h, addressActions, List.mem_append]

/-- A concrete happy-path page state used by several witnesses. -/
def pIdeal : FilterPage :=
  ⟨true, true, true, false, true, true, "https://matrix/results"⟩

/-- Witness for C3: the invalid direction `"x"` is rejected with
`NavigationError` and an empty trace, while the valid (lower-case, padded)
direction `" n "` succeeds and selects the coded value `"121"`. -/
theorem direction_validation_witness :
    configure_search_filters "30" (some "x") "3rd" pIdeal =
      ([], .error (.navigationError
        "Invalid street direction: x. Must be one of: N, NE, E, SE, S, SW, W, NW")) ∧
    (configure_search_filters "30" (some " n ") "3rd" pIdeal).2 = .ok "https://matrix/results" ∧
    PageAction.selectByValue "Fm11_Ctrl15_0_142" "121" ∈
      (configure_search_filters "30" (some " n ") "3rd" pIdeal).1 := by
  refine ⟨?_, ?_, ?_⟩
  · exact (direction_validation "30" "3rd" "x" pIdeal).1 (by decide)
  · exact ((direction_validation "30" "3rd" " n " pIdeal).2 "121" (by decide)).1
  · exact ((direction_validation "30" "3rd" " n " pIdeal).2 "121" (by decide)).2

/-- C10: with `street_direction = None`, a value the public request schema
permits (it is declared Optional with default `None`),
`configure_search_filters` fails before any page interaction with an
`AttributeError` from calling `.upper()` on `None`, which is not a
`NavigationError` and not a `ScraperError` subclass at all. -/
theorem none_direction_attribute_error (num name : String) (p : FilterPage) :
    (configure_search_filters num none name p).1 = [] ∧
    (configure_search_filters num none name p).2 =
      .error (.attributeError "NoneType object has no attribute upper") ∧
    PyError.isScraperError (.attributeError "NoneType object has no attribute upper") = false := by
  exact ⟨rfl, rfl, rfl⟩

/-- C5: in `configure_search_filters` (under any accepted direction), a
status checkbox receives a click exactly when its current selected state
differs from its target state — Active, Coming Soon and Active With
Contract must end unchecked, Closed checked — so a checkbox already in the
target state receives no click. -/
theorem idempotent_toggling (num name sd : String) (p : FilterPage) (dv : String)
    (c : CheckboxId) (h : lookupAssoc STREET_DIRECTION_MAP (pyUpperTrim sd) = some dv) :
    (PageAction.clickCheckbox c ∈ (configure_search_filters num (some sd) name p).1) ↔
      currentChecked p c ≠ targetChecked c := by
  have hnotAddr : PageAction.clickCheckbox c ∉ addressActions num dv name := by
    simp [addressActions]
  have hnotOpt : ∀ f (b : Bool) v, PageAction.clickCheckbox c ∉ optionalSelectActions f b v := by
    intro f b v
    cases b <;> simp [optionalSelectActions]
  simp only [configure_search_filters, h, List.mem_append]
  cases c <;>
    simp [checkboxActions, currentChecked, targetChecked, hnotAddr, hnotOpt]

/-- Witness for C5: on a page where Closed is already checked and Active
is checked (differing from target), Active is clicked and Closed is not. -/
theorem idempotent_toggling_witness :
    (PageAction.clickCheckbox .active ∈
      (configure_search_filters "30" (some "N") "3rd"
        ⟨true, false, false, true, true, true, "u"⟩).1) ∧
    ¬ (PageAction.clickCheckbox .closed ∈
      (configure_search_filters "30" (some "N") "3rd"
        ⟨true, false, false, true, true, true, "u"⟩).1) := by
  constructor
  · exact (idempotent_toggling "30" "3rd" "N" ⟨true, false, false, true, true, true, "u"⟩
      "121" .active (by decide)).2 (by decide)
  · intro hmem
    exact absurd ((idempotent_toggling "30" "3rd" "N"
      ⟨true, false, false, true, true, true, "u"⟩ "121" .closed (by decide)).1 hmem) (by decide)

/-- A Mortgage History Record: the three parallel sequences built by
`_extract_mortgage_history` (navigator.py lines 1274-1278). -/
structure MortgageRecord where
  mortgage_dates : List String
  mortgage_amounts : List String
  mortgage_lenders : List String
deriving DecidableEq, Repr

/-- A Result Identifier collected during the COLLECTING phase
(navigator.py lines 909-913): record key (ML#), opaque handle (ikey) and
the page it was found on. -/
structure MLInfo where
  ml_number : String
  ikey : String
  page : Nat
deriving DecidableEq, Repr

/-- The Result Set: the Python dict `all_data` mapping ML# to a mortgage
history record or explicit `None`, modelled as an insertion-ordered
association list. -/
def ResultMap : Type := List (String × Option MortgageRecord)

instance : DecidableEq ResultMap := by
  unfold ResultMap
  infer_instance

/-- Dict membership `k in all_data`. -/
def containsKey (m : ResultMap) (k : String) : Bool :=
  m.any (fun e => e.1 = k)

/-- Dict lookup `all_data.get(k)`: `some v` when the key is present with
value `v` (itself an `Option`, since entries can be explicit `None`). -/
def lookupEntry : ResultMap → String → Option (Option MortgageRecord)
  | [], _ => none
  | e :: rest, k => if e.1 = k then some e.2 else lookupEntry rest k

/-- Dict assignment `all_data[k] = v`: updates the entry in place when the
key exists (Python dicts keep the original insertion position), appends
otherwise. -/
def setEntry : ResultMap → String → Option MortgageRecord → ResultMap
  | [], k, v => [(k, v)]
  | e :: rest, k, v => if e.1 = k then (k, v) :: rest else e :: setEntry rest k v

/-- The outcome of one iteration of the HARVESTING loop for one collected
identifier (navigator.py lines 957-1110), as observable from `all_data`:
  - `anchorGone`: switching back to the results window fails, the loop
    breaks preserving partial results (lines 965-970);
  - `relocateFail`: the row's dollar link cannot be re-found by its ikey,
    the identifier is skipped without touching `all_data` (lines 973-981);
  - `tabOpenFail`: the click raises or no new tab appears after the
    bounded retries, skipped without touching `all_data` (lines 983-1020);
  - `noPropertiesFound` / `loginRedirect`: the detail URL classifies as
    no-data, the entry is set to `None` (lines 1038-1056);
  - `extracted r`: `_extract_mortgage_history` returns `r`; a present
    record is stored, a `None` result is stored as `None` (lines
    1061-1071);
  - `extractRaise`: extraction raises, the entry is set to `None`
    (lines 1072-1074);
  - `iterRaise`: any other exception in the iteration is caught by the
    per-identifier handler, the entry is set to `None` (lines 1103-1110). -/
inductive HarvestOutcome where
  | anchorGone
  | relocateFail
  | tabOpenFail
  | noPropertiesFound
  | loginRedirect
  | extracted (r : Option MortgageRecord)
  | extractRaise
  | iterRaise
deriving DecidableEq, Repr

/-- The HARVESTING loop (navigator.py lines 957-1110): one iteration per
collected identifier in collection order; `outcomes i` is the injected
environment behaviour of iteration `i`. -/
def harvestLoop (outcomes : Nat → HarvestOutcome) :
    List MLInfo → Nat → ResultMap → ResultMap
  | [], _, m => m
  | info :: rest, i, m =>
    match outcomes i with
    | .anchorGone => m
    | .relocateFail => harvestLoop outcomes rest (i + 1) m
    | .tabOpenFail => harvestLoop outcomes rest (i + 1) m
    | .noPropertiesFound => harvestLoop outcomes rest (i + 1) (setEntry m info.ml_number none)
    | .loginRedirect => harvestLoop outcomes rest (i + 1) (setEntry m info.ml_number none)
    | .extracted r => harvestLoop outcomes rest (i + 1) (setEntry m info.ml_number r)
    | .extractRaise => harvestLoop outcomes rest (i + 1) (setEntry m info.ml_number none)
    | .iterRaise => harvestLoop outcomes rest (i + 1) (setEntry m info.ml_number none)

/-- Initialization of the Result Set before harvesting (navigator.py
lines 949-951): every collected key's entry is set to `None`. -/
def initResults (collected : List MLInfo) : ResultMap :=
  collected.foldl (fun m info => setEntry m info.ml_number none) []

/-- The harvesting engine `extract_mortgage_history_from_results`
(navigator.py lines 784-1117) after the COLLECTING phase has produced
`collected`: with no collected identifiers the empty dict is returned
(line 945-947); otherwise every collected key is initialized to `None`
and the HARVESTING loop runs to completion (or to an anchor-window
loss). -/
def extract_mortgage_history_from_results (collected : List MLInfo)
    (outcomes : Nat → HarvestOutcome) : ResultMap :=
  if collected.isEmpty then []
  else harvestLoop outcomes collected 0 (initResults collected)

/-- The engine's fatal-exception handler (navigator.py lines 1119-1126):
whatever was collected so far is back-filled with `None` entries for every
key not already present, and the partial Result Set is returned. -/
def backfillAbsent (m : ResultMap) (collected : List MLInfo) : ResultMap :=
  collected.foldl
    (fun m info => if containsKey m info.ml_number then m else setEntry m info.ml_number none) m

theorem containsKey_setEntry (m : ResultMap) (k0 k : String) (v : Option MortgageRecord) :
    containsKey (setEntry m k0 v) k = (containsKey m k || decide (k0 = k)) := by
  induction m with
  | nil => simp [setEntry, containsKey, eq_comm]
  | cons e rest ih =>
    by_cases he : e.1 = k0
    · simp [setEntry, he, containsKey]
      by_cases hk : k0 = k <;> simp [hk]
    · simp [setEntry, he, containsKey] at ih ⊢
      by_cases hek : e.1 = k <;> simp [hek, ih]

theorem containsKey_harvestLoop (outcomes : Nat → HarvestOutcome) (l : List MLInfo) :
    ∀ (i : Nat) (m : ResultMap) (k : String),
      (∀ info ∈ l, containsKey m info.ml_number = true) →
      containsKey (harvestLoop outcomes l i m) k = containsKey m k := by
  induction l with
  | nil => intro i m k _; rfl
  | cons info rest ih =>
    intro i m k hall
    have hinfo : containsKey m info.ml_number = true :=
      hall info (List.mem_cons_self info rest)
    have hrest : ∀ info2 ∈ rest, containsKey m info2.ml_number = true :=
      fun info2 hm => hall info2 (List.mem_cons_of_mem info hm)
    have hset : ∀ v k2, containsKey (setEntry m info.ml_number v) k2 = containsKey m k2 := by
      intro v k2
      rw [containsKey_setEntry]
      by_cases hk : info.ml_number = k2
      · subst hk; simp [hinfo]
      · simp [hk]
    have hsetAll : ∀ v, ∀ info2 ∈ rest,
        containsKey (setEntry m info.ml_number v) info2.ml_number = true := by
      intro v info2 hm
      rw [hset]
      exact hrest info2 hm
    cases houtcome : outcomes i <;>
      simp only [harvestLoop, houtcome] <;>
      first
        | rfl
        | exact ih (i + 1) m k hrest
        | (rw [ih (i + 1) _ k (hsetAll _), hset])

theorem containsKey_foldl_setEntry (f : MLInfo → Option MortgageRecord) (c : List MLInfo) :
    ∀ (m : ResultMap) (k : String),
      containsKey (c.foldl (fun m info => setEntry m info.ml_number (f info)) m) k =
        (containsKey m k || (c.map MLInfo.ml_number).contains k) := by
  induction c with
  | nil => intro m k; simp
  | cons info rest ih =>
    intro m k
    simp only [List.foldl_cons, ih, containsKey_setEntry, List.map_cons, List.contains_cons]
    by_cases hk : info.ml_number = k
    · simp [hk, beq_iff_eq, Bool.or_assoc, Bool.or_comm, Bool.or_left_comm]
    · have hk2 : ¬ k = info.ml_number := fun h => hk h.symm
      simp [hk, hk2, beq_iff_eq, Bool.or_assoc, Bool.or_comm, Bool.or_left_comm]

theorem containsKey_initResults (c : List MLInfo) (k : String) :
    containsKey (initResults c) k = (c.map MLInfo.ml_number).contains k := by
  have h := containsKey_foldl_setEntry (fun _ => none) c [] k
  simp only [initResults]
  rw [h]
  simp [containsKey]

theorem containsKey_backfillAbsent (c : List MLInfo) :
    ∀ (m : ResultMap) (k : String),
      containsKey (backfillAbsent m c) k = (containsKey m k || (c.map MLInfo.ml_number).contains k) := by
  induction c with
  | nil => intro m k; simp [backfillAbsent]
  | cons info rest ih
  => intro m k
     simp only [backfillAbsent, List.foldl_cons] at ih ⊢
     by_cases hc : containsKey m info.ml_number
     · rw [if_pos hc, ih]
       by_cases hk : info.ml_number = k
       · subst hk; simp [hc]
       · have hk2 : ¬ k = info.ml_number := fun h => hk h.symm
         simp [hk, hk2, beq_iff_eq]
     · rw [if_neg (by simp [hc]), ih]
       rw [containsKey_setEntry]
       by_cases hk : info.ml_number = k
       · subst hk; simp
       · have hk2 : ¬ k = info.ml_number := fun h => hk h.symm
         simp [hk, hk2, beq_iff_eq, Bool.or_assoc, Bool.or_comm, Bool.or_left_comm]

/-- C1: completeness of the harvesting engine — for every run, normal or
aborted, the key set of the returned Result Set is exactly the set of
record keys (ML#s) collected during the COLLECTING phase.  The first
conjunct covers every completed engine run under arbitrary per-identifier
outcomes (injected extraction failures, tab-open failures, skips, and an
anchor-window loss that breaks the loop); the second covers the engine's
fatal-exception path, which back-fills absent entries for everything
collected before the crash. -/
theorem harvesting_completeness (collected : List MLInfo) (outcomes : Nat → HarvestOutcome)
    (k : String) :
    containsKey (extract_mortgage_history_from_results collected outcomes) k =
      (collected.map MLInfo.ml_number).contains k ∧
    containsKey (backfillAbsent [] collected) k =
      (collected.map MLInfo.ml_number).contains k := by
  constructor
  · by_cases hemp : collected.isEmpty
    · rw [List.isEmpty_iff] at hemp
      subst hemp
      simp [extract_mortgage_history_from_results, containsKey]
    · rw [extract_mortgage_history_from_results, if_neg hemp]
      rw [containsKey_harvestLoop outcomes collected 0 (initResults collected) k
        (fun info hm => by
          rw [containsKey_initResults]
          simp only [List.contains_eq_any_beq, List.any_eq_true]
          exact ⟨info.ml_number, List.mem_map_of_mem MLInfo.ml_number hm, by simp⟩)]
      exact containsKey_initResults collected k
  · rw [containsKey_backfillAbsent]
    simp [containsKey]

theorem lookupEntry_setEntry (m : ResultMap) (k0 k : String) (v : Option MortgageRecord) :
    lookupEntry (setEntry m k0 v) k = if k0 = k then some v else lookupEntry m k := by
  induction m with
  | nil =>
    by_cases hk : k0 = k <;> simp [setEntry, lookupEntry, hk]
  | cons e rest ih =>
    by_cases he : e.1 = k0
    · subst he
      by_cases hk : e.1 = k <;> simp [setEntry, lookupEntry, hk]
    · by_cases hek : e.1 = k
      · subst hek
        have hk0 : ¬ k0 = e.1 := fun h => he h.symm
        simp [setEntry, lookupEntry, he, hk0]
      · simp [setEntry, lookupEntry, he, hek, ih]

/-- The value a harvest outcome records into the Result Set, if any:
skips and anchor loss record nothing, the no-data redirects and exception
handlers record explicit `None`, extraction records its own result. -/
def recordedValue : HarvestOutcome → Option (Option MortgageRecord)
  | .anchorGone => none
  | .relocateFail => none
  | .tabOpenFail => none
  | .noPropertiesFound => some none
  | .loginRedirect => some none
  | .extracted r => some r
  | .extractRaise => some none
  | .iterRaise => some none

/-- The last value recorded for key `k` by the harvesting loop over the
given identifiers, scanning in collection order and stopping at an
anchor-window loss. -/
def lastRecorded (outcomes : Nat → HarvestOutcome) :
    List MLInfo → Nat → String → Option (Option MortgageRecord)
  | [], _, _ => none
  | info :: rest, i, k =>
    if outcomes i = .anchorGone then none
    else
      match lastRecorded outcomes rest (i + 1) k with
      | some v => some v
      | none => if info.ml_number = k then recordedValue (outcomes i) else none

/-- C2 as stated is false on the code: with two collected identifiers
sharing the record key `"A100000001"` (distinct ikeys, so both survive
deduplication), where the first extracts a present record and the second
reaches the recording step with an absent extraction result, the later
absent result replaces the earlier present record — the final entry for
the key is explicit `None`, although processing only the first identifier
yields the present record. -/
theorem non_overwrite_counterexample :
    extract_mortgage_history_from_results [⟨"A100000001", "11", 1⟩]
        (fun i => if i = 0 then .extracted (some ⟨["01/15/2025"], ["$450,000.00"], ["Chase"]⟩)
                  else .extracted none) =
      [("A100000001", some ⟨["01/15/2025"], ["$450,000.00"], ["Chase"]⟩)] ∧
    extract_mortgage_history_from_results [⟨"A100000001", "11", 1⟩, ⟨"A100000001", "22", 1⟩]
        (fun i => if i = 0 then .extracted (some ⟨["01/15/2025"], ["$450,000.00"], ["Chase"]⟩)
                  else .extracted none) =
      [("A100000001", none)] := by
  exact ⟨rfl, rfl⟩

/-- C2 amended: the Result Set entry for a key is the value recorded by
the last identifier with that key that reaches a recording step before any
anchor-window loss — a later recorded result, present or absent, always
overwrites the earlier entry (so a later absent result does replace an
earlier present record, just as a later present result overwrites an
earlier absent entry); only identifiers skipped before recording
(re-locate failure, tab-open failure) and identifiers after an anchor loss
leave the earlier entry in place. -/
theorem harvest_last_write_wins (outcomes : Nat → HarvestOutcome) (l : List MLInfo) :
    ∀ (i : Nat) (m : ResultMap) (k : String),
      lookupEntry (harvestLoop outcomes l i m) k =
        (lastRecorded outcomes l i k).elim (lookupEntry m k) some := by
  induction l with
  | nil => intro i m k; rfl
  | cons info rest ih =>
    intro i m k
    by_cases hag : outcomes i = .anchorGone
    · simp [harvestLoop, lastRecorded, hag]
    · cases houtcome : outcomes i with
      | anchorGone => exact absurd houtcome hag
      | relocateFail =>
        simp only [harvestLoop, houtcome, lastRecorded, ih (i + 1) m k]
        simp [recordedValue]
        cases lastRecorded outcomes rest (i + 1) k <;> simp
      | tabOpenFail =>
        simp only [harvestLoop, houtcome, lastRecorded, ih (i + 1) m k]
        simp [recordedValue]
        cases lastRecorded outcomes rest (i + 1) k <;> simp
      | noPropertiesFound =>
        simp only [harvestLoop, houtcome, lastRecorded,
          ih (i + 1) (setEntry m info.ml_number none) k]
        simp only [recordedValue]
        cases lastRecorded outcomes rest (i + 1) k <;>
          simp [lookupEntry_setEntry] <;>
          by_cases hk : info.ml_number = k <;> simp [hk]
      | loginRedirect =>
        simp only [harvestLoop, houtcome, lastRecorded,
          ih (i + 1) (setEntry m info.ml_number none) k]
        simp only [recordedValue]
        cases lastRecorded outcomes rest (i + 1) k <;>
          simp [lookupEntry_setEntry] <;>
          by_cases hk : info.ml_number = k <;> simp [hk]
      | extracted r =>
        simp only [harvestLoop, houtcome, lastRecorded,
          ih (i + 1) (setEntry m info.ml_number r) k]
        simp only [recordedValue]
        cases lastRecorded outcomes rest (i + 1) k <;>
          simp [lookupEntry_setEntry] <;>
          by_cases hk : info.ml_number = k <;> simp [hk]
      | extractRaise =>
        simp only [harvestLoop, houtcome, lastRecorded,
          ih (i + 1) (setEntry m info.ml_number none) k]
        simp only [recordedValue]
        cases lastRecorded outcomes rest (i + 1) k <;>
          simp [lookupEntry_setEntry] <;>
          by_cases hk : info.ml_number = k <;> simp [hk]
      | iterRaise =>
        simp only [harvestLoop, houtcome, lastRecorded,
          ih (i + 1) (setEntry m info.ml_number none) k]
        simp only [recordedValue]
        cases lastRecorded outcomes rest (i + 1) k <;>
          simp [lookupEntry_setEntry] <;>
          by_cases hk : info.ml_number = k <;> simp [hk]

/-- The Realist detail page as `_extract_mortgage_history` observes it:
what each of the three table selectors locates, modelled as the rows of
cell texts of the located table (or `none` when that selector's bounded
wait times out).  The primary selector is the accordion id, the first
fallback matches on the header texts, the second on any table mentioning
the word Mortgage (navigator.py lines 1190-1225). -/
structure DetailPage where
  primaryTable : Option (List (List String))
  altTable : Option (List (List String))
  genericTable : Option (List (List String))
deriving DecidableEq, Repr

/-- The selector-fallback chain of `_extract_mortgage_history`
(navigator.py lines 1192-1225): primary selector first, then the two
progressively more generic content-based selectors. -/
def locateMortgageTable (p : DetailPage) : Option (List (List String)) :=
  match p.primaryTable with
  | some t => some t
  | none =>
    match p.altTable with
    | some t => some t
    | none => p.genericTable

/-- One row's extracted values (navigator.py lines 1245-1267): all cells
after the first (header) cell, stripped, keeping non-empty text that is
not a literal repeat of that row's column-header string. -/
def rowValues (header : String) (row : List String) : List String :=
  ((row.drop 1).map (fun c => String.mk (trimChars c.toList))).filter
    (fun t => t != "" && t != header)

/-- Model of `_extract_mortgage_history` (navigator.py lines 1128-1291):
absent when no selector locates the table, absent when the located table
has fewer than three rows (line 1236-1238), otherwise the three sequences
are built positionally from the first three rows and the result is absent
when all three are empty (lines 1270-1272), else the record. -/
def extract_mortgage_history (p : DetailPage) : Option MortgageRecord :=
  match locateMortgageTable p with
  | none => none
  | some rows =>
    match rows with
    | r0 :: r1 :: r2 :: _ =>
      let dates := rowValues "Mortgage Date" r0
      let amounts := rowValues "Mortgage Amount" r1
      let lenders := rowValues "Mortgage Lender" r2
      if dates.isEmpty && amounts.isEmpty && lenders.isEmpty then none
      else some ⟨dates, amounts, lenders⟩
    | _ => none

/-- Formalized from the claim's words (C7): absent exactly when the table
cannot be located or when all three extracted sequences are empty,
otherwise the three sequences built positionally from the table's first
three rows (a missing row contributing no cells).  This is the claimed
behaviour, to be compared against `extract_mortgage_history`. -/
def extract_mortgage_history_claimC7 (p : DetailPage) : Option MortgageRecord :=
  match locateMortgageTable p with
  | none => none
  | some rows =>
    let dates := rowValues "Mortgage Date" (rows.getD 0 [])
    let amounts := rowValues "Mortgage Amount" (rows.getD 1 [])
    let lenders := rowValues "Mortgage Lender" (rows.getD 2 [])
    if dates.isEmpty && amounts.isEmpty && lenders.isEmpty then none
    else some ⟨dates, amounts, lenders⟩

/-- A concrete detail page refuting C7 as stated: the primary selector
locates a two-row table whose data cells are non-empty. -/
def twoRowPage : DetailPage :=
  ⟨some [["Mortgage Date", "01/15/2025"], ["Mortgage Amount", "$450,000.00"]], none, none⟩

/-- C7 as stated is false on the code: on a located two-row table with
non-empty data cells the claim's description yields a present record (the
table is located and the extracted sequences are not all empty), but the
code returns absent, because of the unstated fewer-than-three-rows guard
at navigator.py line 1236. -/
theorem extraction_shape_counterexample :
    extract_mortgage_history_claimC7 twoRowPage =
      some ⟨["01/15/2025"], ["$450,000.00"], []⟩ ∧
    extract_mortgage_history twoRowPage = none := by
  exact ⟨rfl, rfl⟩

/-- C7 amended: per-record extraction returns absent when no selector of
the primary-then-two-fallbacks chain locates the table, or when the
located table has fewer than three rows, and returns absent rather than an
empty record when all three extracted sequences are empty; otherwise it
returns the three sequences built positionally from the table's first
three rows, taking each row's cells after the first and keeping non-empty
stripped text that is not a literal repeat of that row's column header. -/
theorem extraction_shape (p : DetailPage) :
    (locateMortgageTable p = none → extract_mortgage_history p = none) ∧
    (∀ rows, locateMortgageTable p = some rows → rows.length < 3 →
      extract_mortgage_history p = none) ∧
    (∀ r0 r1 r2 rest, locateMortgageTable p = some (r0 :: r1 :: r2 :: rest) →
      extract_mortgage_history p =
        (if (rowValues "Mortgage Date" r0).isEmpty &&
            (rowValues "Mortgage Amount" r1).isEmpty &&
            (rowValues "Mortgage Lender" r2).isEmpty then none
         else some ⟨rowValues "Mortgage Date" r0, rowValues "Mortgage Amount" r1,
                    rowValues "Mortgage Lender" r2⟩)) := by
  refine ⟨?_, ?_, ?_⟩
  · intro h
    simp [extract_mortgage_history, h]
  · intro rows h hlen
    rw [extract_mortgage_history, h]
    cases rows with
    | nil => rfl
    | cons r0 t0 =>
      cases t0 with
      | nil => rfl
      | cons r1 t1 =>
        cases t1 with
        | nil => rfl
        | cons r2 t2 =>
          simp only [List.length_cons] at hlen
          omega
  · intro r0 r1 r2 rest h
    rw [extract_mortgage_history, h]

/-- Witness for C7 (amended): concrete pages exercising all three
branches — no table anywhere, a two-row table, and a three-row table whose
middle-row header repeat is dropped while the data survives. -/
theorem extraction_shape_witness :
    extract_mortgage_history ⟨none, none, none⟩ = none ∧
    extract_mortgage_history twoRowPage = none ∧
    extract_mortgage_history
        ⟨none, some [["Mortgage Date", " 01/15/2025 ", ""],
                     ["Mortgage Amount", "Mortgage Amount", "$450,000.00"],
                     ["Mortgage Lender", "Chase Bank"]], none⟩ =
      some ⟨["01/15/2025"], ["$450,000.00"], ["Chase Bank"]⟩ := by
  refine ⟨?_, ?_, ?_⟩
  · exact (extraction_shape ⟨none, none, none⟩).1 rfl
  · exact (extraction_shape twoRowPage).2.1
      [["Mortgage Date", "01/15/2025"], ["Mortgage Amount", "$450,000.00"]] rfl (by decide)
  · exact ((extraction_shape
        ⟨none, some [["Mortgage Date", " 01/15/2025 ", ""],
                     ["Mortgage Amount", "Mortgage Amount", "$450,000.00"],
                     ["Mortgage Lender", "Chase Bank"]], none⟩).2.2
      ["Mortgage Date", " 01/15/2025 ", ""]
      ["Mortgage Amount", "Mortgage Amount", "$450,000.00"]
      ["Mortgage Lender", "Chase Bank"] [] rfl).trans (by decide)

/-- Numeric value of a decimal digit character. -/
def digitVal (c : Char) : Nat := c.toNat - '0'.toNat

/-- The year/month/day fields produced by `datetime.strptime` for the
formats used by `parse_date`; CPython's defaults are 1900-01-01. -/
structure DTParts where
  y : Nat
  m : Nat
  d : Nat
deriving DecidableEq, Repr

/-- The format directives occurring in `parse_date`'s format list
(api.py lines 374-382): literal characters, the whitespace run that a
blank in the format matches, and the `%Y`, `%m`, `%d`, `%B`, `%b`
directives. -/
inductive FmtTok where
  | lit (c : Char)
  | ws
  | digY
  | digm
  | digd
  | monB
  | monb
deriving DecidableEq, Repr

/-- `%Y`: exactly four decimal digits, per CPython's `_strptime` pattern. -/
def candY : List Char → List (Nat × List Char)
  | a :: b :: c :: d :: rest =>
    if a.isDigit && b.isDigit && c.isDigit && d.isDigit then
      [(digitVal a * 1000 + digitVal b * 100 + digitVal c * 10 + digitVal d, rest)]
    else []
  | _ => []

/-- `%m`: CPython's month pattern with its alternation order,
two digits 10-12, zero-padded 01-09, then a bare digit 1-9. -/
def candM : List Char → List (Nat × List Char)
  | [] => []
  | a :: rest =>
    (match rest with
     | b :: rest2 =>
       (if a = '1' && (b = '0' || b = '1' || b = '2') then [(10 + digitVal b, rest2)] else []) ++
       (if a = '0' && b.isDigit && b ≠ '0' then [(digitVal b, rest2)] else [])
     | [] => []) ++
    (if a.isDigit && a ≠ '0' then [(digitVal a, rest)] else [])

/-- `%d`: CPython's day pattern with its alternation order, 30-31, then
10-29, then zero-padded 01-09, then a bare digit 1-9. -/
def candD : List Char → List (Nat × List Char)
  | [] => []
  | a :: rest =>
    (match rest with
     | b :: rest2 =>
       (if a = '3' && (b = '0' || b = '1') then [(30 + digitVal b, rest2)] else []) ++
       (if (a = '1' || a = '2') && b.isDigit then [(digitVal a * 10 + digitVal b, rest2)] else []) ++
       (if a = '0' && b.isDigit && b ≠ '0' then [(digitVal b, rest2)] else [])
     | [] => []) ++
    (if a.isDigit && a ≠ '0' then [(digitVal a, rest)] else [])

/-- Full month names for `%B` (matching is case-insensitive). -/
def monthFull : List (String × Nat) :=
  [("january", 1), ("february", 2), ("march", 3), ("april", 4), ("may", 5), ("june", 6),
   ("july", 7), ("august", 8), ("september", 9), ("october", 10), ("november", 11),
   ("december", 12)]

/-- Abbreviated month names for `%b` (matching is case-insensitive). -/
def monthAbbr : List (String × Nat) :=
  [("jan", 1), ("feb", 2), ("mar", 3), ("apr", 4), ("may", 5), ("jun", 6),
   ("jul", 7), ("aug", 8), ("sep", 9), ("oct", 10), ("nov", 11), ("dec", 12)]

/-- Month-name directive: any table entry that is a case-insensitive
prefix of the input matches (month names are prefix-free, so at most one
does). -/
def candMonth (tbl : List (String × Nat)) (cs : List Char) : List (Nat × List Char) :=
  tbl.foldr
    (fun nv acc =>
      if nv.1.toList.isPrefixOf (cs.map Char.toLower) then
        (nv.2, cs.drop nv.1.toList.length) :: acc
      else acc) []

/-- The whitespace-run directive `\s+` that a blank in a strptime format
compiles to: every split consuming at least one leading whitespace
character. -/
def wsSplits (cs : List Char) : List (List Char) :=
  (List.range (cs.takeWhile Char.isWhitespace).length).map (fun i => cs.drop (i + 1))

/-- Backtracking matcher for a compiled strptime format against an input,
returning every full-match field assignment in the regex engine's
alternation order.  Literal characters match case-insensitively, since
CPython compiles the whole format with IGNORECASE. -/
def runFmts : List FmtTok → DTParts → List Char → List DTParts
  | [], dt, cs => if cs.isEmpty then [dt] else []
  | .lit c :: ts, dt, cs =>
    match cs with
    | c2 :: rest => if c2.toLower = c.toLower then runFmts ts dt rest else []
    | [] => []
  | .ws :: ts, dt, cs => (wsSplits cs).flatMap (fun rest => runFmts ts dt rest)
  | .digY :: ts, dt, cs => (candY cs).flatMap (fun vr => runFmts ts { dt with y := vr.1 } vr.2)
  | .digm :: ts, dt, cs => (candM cs).flatMap (fun vr => runFmts ts { dt with m := vr.1 } vr.2)
  | .digd :: ts, dt, cs => (candD cs).flatMap (fun vr => runFmts ts { dt with d := vr.1 } vr.2)
  | .monB :: ts, dt, cs =>
    (candMonth monthFull cs).flatMap (fun vr => runFmts ts { dt with m := vr.1 } vr.2)
  | .monb :: ts, dt, cs =>
    (candMonth monthAbbr cs).flatMap (fun vr => runFmts ts { dt with m := vr.1 } vr.2)

/-- Gregorian leap-year test, as used by `datetime`'s day validation. -/
def isLeap (y : Nat) : Bool :=
  (y % 4 = 0 && y % 100 ≠ 0) || y % 400 = 0

/-- Days in a month, as used by `datetime`'s day validation. -/
def daysInMonth (y m : Nat) : Nat :=
  if m = 2 then (if isLeap y then 29 else 28)
  else if m = 4 || m = 6 || m = 9 || m = 11 then 30
  else 31

/-- Model of `datetime.strptime(s, fmt)` restricted to the year/month/day
fields: the first full regex match, then the `datetime` constructor's
validation (year at least 1, day within the month) — a validation failure
is the `ValueError` that `parse_date` catches to try the next format. -/
def strptimeYmd (fmt : List FmtTok) (s : List Char) : Option DTParts :=
  match runFmts fmt ⟨1900, 1, 1⟩ s with
  | dt :: _ => if 1 ≤ dt.y && dt.d ≤ daysInMonth dt.y dt.m then some dt else none
  | [] => none

/-- The format list of `parse_date` (api.py lines 374-382), in order:
`%Y-%m-%d`, `%m/%d/%Y`, `%m-%d-%Y`, `%d/%m/%Y`, `%Y/%m/%d`,
`%B %d, %Y`, `%b %d, %Y`. -/
def date_formats : List (List FmtTok) :=
  [[.digY, .lit '-', .digm, .lit '-', .digd],
   [.digm, .lit '/', .digd, .lit '/', .digY],
   [.digm, .lit '-', .digd, .lit '-', .digY],
   [.digd, .lit '/', .digm, .lit '/', .digY],
   [.digY, .lit '/', .digm, .lit '/', .digd],
   [.monB, .ws, .digd, .lit ',', .ws, .digY],
   [.monb, .ws, .digd, .lit ',', .ws, .digY]]

/-- Zero-padded two-digit rendering, the model of strftime `%m`/`%d`. -/
def pad2 (n : Nat) : List Char :=
  [Char.ofNat (48 + n / 10 % 10), Char.ofNat (48 + n % 10)]

/-- Zero-padded four-digit rendering, the model of strftime `%Y` for the
four-digit years `%Y` parses. -/
def pad4 (n : Nat) : List Char :=
  [Char.ofNat (48 + n / 1000 % 10), Char.ofNat (48 + n / 100 % 10),
   Char.ofNat (48 + n / 10 % 10), Char.ofNat (48 + n % 10)]

/-- `dt.strftime("%Y-%m-%d")` (api.py line 387). -/
def formatYmd (dt : DTParts) : String :=
  String.mk (pad4 dt.y ++ '-' :: pad2 dt.m ++ '-' :: pad2 dt.d)

/-- Model of `parse_date` in the webhook transform (api.py lines 366-393):
falsy input is absent; otherwise the stripped string is tried against the
format list in order, the first successful parse is re-rendered as
`YYYY-MM-DD`, and if every format fails the result is absent rather than
an exception. -/
def parse_date (date_str : Option String) : Option String :=
  match date_str with
  | none => none
  | some s0 =>
    if s0 = "" then none
    else
      (date_formats.findSome? (fun f => strptimeYmd f (trimChars s0.toList))).map formatYmd

theorem findSome?_eq_none_of_all_none {α β : Type} (f : α → Option β) (l : List α)
    (h : ∀ x ∈ l, f x = none) : l.findSome? f = none := by
  induction l with
  | nil => rfl
  | cons a rest ih =>
    have ha := h a (List.mem_cons_self a rest)
    rw [List.findSome?_cons, ha]
    exact ih (fun x hx => h x (List.mem_cons_of_mem a hx))

/-- C8: date normalization maps `"01/15/2025"`, `"2025-01-15"` and
`"January 15, 2025"` to `"2025-01-15"`, and any non-empty input on which
every accepted format fails (such as `"not a date"`) to absent rather
than an exception. -/
theorem date_normalization (s : String) :
    parse_date (some "01/15/2025") = some "2025-01-15" ∧
    parse_date (some "2025-01-15") = some "2025-01-15" ∧
    parse_date (some "January 15, 2025") = some "2025-01-15" ∧
    parse_date (some "not a date") = none ∧
    ((∀ f ∈ date_formats, strptimeYmd f (trimChars s.toList) = none) →
      parse_date (some s) = none) := by
  refine ⟨by decide, by decide, by decide, by decide, ?_⟩
  intro h
  by_cases hs : s = ""
  · simp [parse_date, hs]
  · simp only [parse_date, if_neg hs]
    rw [findSome?_eq_none_of_all_none _ _ h]
    rfl

/-- Witness for C8: the universal all-formats-fail clause applied at the
concrete input `"not a date"`. -/
theorem date_normalization_witness :
    parse_date (some "not a date") = none :=
  (date_normalization "not a date").2.2.2.2 (by decide)

/-- The result of Python `float(cleaned)` for `parse_amount`, keeping the
decimal value exact: a finite value is a sign, a decimal mantissa and a
power-of-ten scale (`value = ±mant * 10^scale`); `float` also accepts the
infinity and NaN literals. -/
inductive PyFloatVal where
  | num (neg : Bool) (mant : Nat) (scale : Int)
  | inf (neg : Bool)
  | nan
deriving DecidableEq, Repr

/-- Leading decimal digits of a character list, with the remainder. -/
def takeDigits (cs : List Char) : List Nat × List Char :=
  ((cs.takeWhile Char.isDigit).map digitVal, cs.dropWhile Char.isDigit)

/-- Value of a list of decimal digits. -/
def digitsToNat (ds : List Nat) : Nat :=
  ds.foldl (fun a d => a * 10 + d) 0

/-- The tail of a float literal after the optional sign and after it was
established that it is not an infinity or NaN literal: integer digits,
optional fraction, optional exponent; fails (`ValueError`) when no digit
is present or trailing characters remain. -/
def parseFloatTail (neg : Bool) (cs : List Char) : Option PyFloatVal :=
  let ipr := takeDigits cs
  let fr :=
    match ipr.2 with
    | '.' :: r => takeDigits r
    | _ => ([], ipr.2)
  if ipr.1.isEmpty && fr.1.isEmpty then none
  else
    let mant := digitsToNat (ipr.1 ++ fr.1)
    let fracLen : Int := fr.1.length
    match fr.2 with
    | [] => some (.num neg mant (-fracLen))
    | e :: r3 =>
      if e = 'e' || e = 'E' then
        let esr :=
          match r3 with
          | '+' :: r => ((1 : Int), r)
          | '-' :: r => ((-1 : Int), r)
          | r => ((1 : Int), r)
        let edr := takeDigits esr.2
        if edr.1.isEmpty || !edr.2.isEmpty then none
        else some (.num neg mant (esr.1 * digitsToNat edr.1 - fracLen))
      else none

/-- Model of Python `float(s)` on the cleaned amount string: strips
surrounding whitespace, reads an optional sign, accepts the
case-insensitive `inf`/`infinity`/`nan` literals, else a decimal literal
with optional fraction and exponent; `none` is the `ValueError` that
`parse_amount` catches. -/
def parseFloatChars (cs0 : List Char) : Option PyFloatVal :=
  let cs1 := trimChars cs0
  let sgn :=
    match cs1 with
    | '+' :: r => (false, r)
    | '-' :: r => (true, r)
    | r => (false, r)
  let lower := sgn.2.map Char.toLower
  if lower = "inf".toList || lower = "infinity".toList then some (.inf sgn.1)
  else if lower = "nan".toList then some .nan
  else parseFloatTail sgn.1 sgn.2

/-- Model of Python `int(f)` on a float: truncation toward zero for finite
values, `OverflowError` on infinities, `ValueError` on NaN. -/
def truncFloat : PyFloatVal → Except PyError Int
  | .num neg mant scale =>
    let mag : Nat :=
      if 0 ≤ scale then mant * 10 ^ scale.toNat else mant / 10 ^ (-scale).toNat
    .ok (if neg then -(mag : Int) else (mag : Int))
  | .inf _ => .error (.overflowError "cannot convert float infinity to integer")
  | .nan => .error (.valueError "cannot convert float NaN to integer")

/-- The cleaning step of `parse_amount` (api.py line 402): remove every
`$`, `,` and space character, then strip. -/
def cleanAmount (cs : List Char) : List Char :=
  trimChars (removeChar ' ' (removeChar ',' (removeChar '$' cs)))

instance instDecEqExcept {ε α : Type} [DecidableEq ε] [DecidableEq α] :
    DecidableEq (Except ε α) := fun x y =>
  match x, y with
  | .error e1, .error e2 =>
    if h : e1 = e2 then .isTrue (congrArg Except.error h)
    else .isFalse (fun hh => h (Except.error.inj hh))
  | .ok a1, .ok a2 =>
    if h : a1 = a2 then .isTrue (congrArg Except.ok h)
    else .isFalse (fun hh => h (Except.ok.inj hh))
  | .error _, .ok _ => .isFalse (fun hh => Except.noConfusion hh)
  | .ok _, .error _ => .isFalse (fun hh => Except.noConfusion hh)

/-- The body of `parse_amount`'s try block on a non-empty cleaned string
(api.py lines 402-405): an empty cleaned string yields 0, an unparsable
cleaned string raises `ValueError` which the handler turns into 0, and
the result of `int(float(cleaned))` is returned otherwise — with the
NaN `ValueError` caught but the infinity `OverflowError` escaping. -/
def amountResult (cleaned : List Char) : Except PyError Int :=
  if cleaned.isEmpty then .ok 0
  else
    match parseFloatChars cleaned with
    | none => .ok 0
    | some f =>
      match truncFloat f with
      | .ok n => .ok n
      | .error (.valueError _) => .ok 0
      | .error e => .error e

/-- Model of `parse_amount` in the webhook transform (api.py lines
395-408): falsy input yields 0; otherwise the string is cleaned and
converted via `int(float(cleaned))` under a handler catching only
`ValueError` and `AttributeError`. -/
def parse_amount (amount_str : Option String) : Except PyError Int :=
  match amount_str with
  | none => .ok 0
  | some s => if s = "" then .ok 0 else amountResult (cleanAmount s.toList)

/-- C9 as stated is false on the code: `parse_amount` does not return 0
on every unconvertible input — on `"inf"`, `float` succeeds and the
integer conversion raises `OverflowError`, which the handler tuple
`(ValueError, AttributeError)` does not catch, so the call raises instead
of returning 0. -/
theorem amount_parsing_counterexample :
    parse_amount (some "inf") =
      .error (.overflowError "cannot convert float infinity to integer") := by
  decide

/-- C9 amended: amount parsing strips currency symbols, commas and spaces
and truncates to an integer, so `"$450,000.00"` yields 450000; it returns
0 for `None`, the empty string, every input whose cleaned form fails to
parse as a float, and NaN inputs — but an input whose cleaned form parses
to an infinite float makes the integer conversion raise an uncaught
`OverflowError` instead of returning 0. -/
theorem amount_parsing (s : String) :
    parse_amount (some "$450,000.00") = .ok 450000 ∧
    parse_amount none = .ok 0 ∧
    parse_amount (some "") = .ok 0 ∧
    (parseFloatChars (cleanAmount s.toList) = none → parse_amount (some s) = .ok 0) ∧
    (parseFloatChars (cleanAmount s.toList) = some .nan → parse_amount (some s) = .ok 0) ∧
    (∀ b, parseFloatChars (cleanAmount s.toList) = some (.inf b) →
      parse_amount (some s) =
        .error (.overflowError "cannot convert float infinity to integer")) := by
  have hbody : ∀ s2 : String, ¬ s2 = "" →
      parse_amount (some s2) = amountResult (cleanAmount s2.toList) := by
    intro s2 hs2
    simp [parse_amount, hs2]
  refine ⟨by decide, rfl, by decide, ?_, ?_, ?_⟩
  · intro h
    by_cases hs : s = ""
    · rw [hs]; decide
    · rw [hbody s hs]
      unfold amountResult
      by_cases hemp : (cleanAmount s.toList).isEmpty
      · rw [if_pos hemp]
      · rw [if_neg hemp, h]
  · intro h
    by_cases hs : s = ""
    · rw [hs]; decide
    · rw [hbody s hs]
      unfold amountResult
      by_cases hemp : (cleanAmount s.toList).isEmpty
      · rw [if_pos hemp]
      · rw [if_neg hemp, h]
        rfl
  · intro b h
    by_cases hs : s = ""
    · rw [hs] at h
      have hnone : parseFloatChars (cleanAmount "".toList) = none := by decide
      rw [hnone] at h
      cases h
    · by_cases hemp : (cleanAmount s.toList).isEmpty
      · rw [List.isEmpty_iff] at hemp
        rw [hemp] at h
        have hnone : parseFloatChars [] = none := by decide
        rw [hnone] at h
        cases h
      · rw [hbody s hs]
        unfold amountResult
        rw [if_neg hemp, h]
        rfl

/-- Witness for C9 (amended): the conditional clauses applied at the
concrete inputs `"abc"` (parse failure), `"nan"` (NaN) and `"-inf"`
(infinity). -/
theorem amount_parsing_witness :
    parse_amount (some "abc") = .ok 0 ∧
    parse_amount (some "nan") = .ok 0 ∧
    parse_amount (some "-inf") =
      .error (.overflowError "cannot convert float infinity to integer") := by
  refine ⟨?_, ?_, ?_⟩
  · exact (amount_parsing "abc").2.2.2.1 (by decide)
  · exact (amount_parsing "nan").2.2.2.2.1 (by decide)
  · exact (amount_parsing "-inf").2.2.2.2.2 true (by decide)

end CondoSearch
